import Mathlib

/-!
Shallow embedding of `src/core/src/components/accordion/accordion.tsx`
(the `ion-accordion` component).

The component is a small state machine over four lifecycle states driven by
an enclosing accordion group.  Its asynchronous parts (an animation-frame
scheduler and a transition-end wait) are modelled operationally: scheduled
frames and pending transition waits are explicit queues in a `Machine`
record, and separate step functions (`runFrame`, `fireWait`) execute them.
All counters (`rafSchedules`, `framesCancelled`, `expandCompletions`,
`collapseCompletions`) are instrumentation used only to *observe* the
behaviour of the translated code; they do not influence it.
-/

/-- The four-state lifecycle enum `AccordionState` (source lines 6–11).
The source declares it as a bit-flag enum but only ever assigns and compares
single values, so a plain closed enumeration is the faithful model. -/
inductive AccordionState where
  | Collapsed
  | Collapsing
  | Expanded
  | Expanding
deriving DecidableEq, Repr

/-- The accordion group's `value` property as read at source line 232
(`const value = accordionGroup.value;`): in the DOM API it is either
undefined/null, a single string, or an array of strings. -/
inductive GroupValue where
  | undef
  | scalar (s : String)
  | arr (l : List String)
deriving DecidableEq, Repr

/-- The `shouldExpand` computation of source line 234:
`(Array.isArray(value)) ? value.includes(accordionValue) : value === accordionValue`.
An undefined group value is `===`-unequal to any string. -/
def GroupValue.selects : GroupValue → String → Bool
  | .undef, _ => false
  | .scalar s, v => s == v
  | .arr l, v => l.contains v

/-- What sits immediately next to the accordion's host element in document
order: nothing, a non-accordion element, or an `ion-accordion` with an
optional `value`. -/
inductive Sibling where
  | absent
  | notAccordion
  | accordion (value : Option String)
deriving DecidableEq, Repr

/-- Composition of `getNextSibling`/`getPreviousSibling` (source lines
265–283) with the `x && x.value` read (source lines 250 and 257): yields a
string exactly when the adjacent element exists, has tag `ION-ACCORDION`,
and its `value` is defined. -/
def siblingAdjValue : Sibling → Option String
  | .accordion v => v
  | _ => none

/-- Which of the two animation-frame callbacks a scheduled frame will run:
the body of the `raf` at source line 167 (expand) or at line 203 (collapse). -/
inductive FrameKind where
  | expandFrame
  | collapseFrame
deriving DecidableEq, Repr

/-- Which continuation a pending `transitionEndAsync` wait resumes:
the code after `await waitForTransition` at source line 181 (expand) or at
line 219 (collapse). -/
inductive WaitKind where
  | expandWait
  | collapseWait
deriving DecidableEq, Repr

/-- The accordion component's state together with its environment and the
operational state of the scheduler.  Fields mirror the class fields of
`Accordion`: `value` (line 54), `state`/`isNext`/`isPrevious` (lines 47–49),
`currentRaf` (line 43), the element references modelled as presence flags,
and the resolved `accordionGroupEl` reference as `hasGroup`.
`pendingFrames` holds scheduled-but-not-yet-run animation frames (id and
kind, in scheduling order); `pendingWaits` holds transition waits in
registration order together with the timeout passed to `transitionEndAsync`.
`maxHeightSet` models whether the inline `max-height` style property is set
on the content element. -/
structure Machine where
  hasEl : Bool
  groupAncestor : Bool
  hasGroup : Bool
  value : Option String
  groupValue : GroupValue
  state : AccordionState
  isNext : Bool
  isPrevious : Bool
  hasContentEl : Bool
  hasContentWrapper : Bool
  maxHeightSet : Bool
  currentRaf : Option Nat
  nextRafId : Nat
  pendingFrames : List (Nat × FrameKind)
  pendingWaits : List (WaitKind × Nat)
  nextSibling : Sibling
  prevSibling : Sibling
  rafSchedules : Nat
  framesCancelled : Nat
  expandCompletions : Nat
  collapseCompletions : Nat
deriving DecidableEq, Repr

/-- `cancelAnimationFrame(id)` (source lines 163 and 200): removes the frame
with the given id if it is still pending; cancelling an id whose frame has
already run (or never existed) is a no-op.  `framesCancelled` counts only
effective cancellations of a pending frame. -/
def cancelAnimationFrame (m : Machine) (id : Nat) : Machine :=
  if m.pendingFrames.any (fun p => p.1 == id) then
    { m with pendingFrames := m.pendingFrames.filter (fun p => p.1 != id),
             framesCancelled := m.framesCancelled + 1 }
  else m

/-- `this.currentRaf = raf(cb)` (source lines 167 and 203): appends a fresh
frame to the pending queue and records its id in `currentRaf`. -/
def scheduleRaf (k : FrameKind) (m : Machine) : Machine :=
  { m with pendingFrames := m.pendingFrames ++ [(m.nextRafId, k)],
           currentRaf := some m.nextRafId,
           nextRafId := m.nextRafId + 1,
           rafSchedules := m.rafSchedules + 1 }

/-- `if (this.currentRaf !== undefined) { cancelAnimationFrame(this.currentRaf); }`
(source lines 162–164 and 199–201).  Note the source never resets
`currentRaf` after a frame has run, so the stored id may be stale. -/
def cancelCurrent (m : Machine) : Machine :=
  match m.currentRaf with
  | some id => cancelAnimationFrame m id
  | none => m

/-- Synchronous part of `expandAccordion` (source lines 149–186): the initial
update short-circuits to `Expanded`; an item already `Expanded` is a no-op;
missing content element or wrapper silently returns; otherwise the state is
set to `Expanding`, the current frame handle is cancelled, and the expand
frame callback is scheduled. -/
def expandAccordion (initialUpdate : Bool) (m : Machine) : Machine :=
  if initialUpdate then { m with state := .Expanded }
  else if m.state = .Expanded then m
  else if m.hasContentEl = false ∨ m.hasContentWrapper = false then m
  else scheduleRaf .expandFrame (cancelCurrent { m with state := .Expanding })

/-- Synchronous part of `collapseAccordion` (source lines 188–224): the
initial update short-circuits to `Collapsed`; an item already `Collapsed` is
a no-op; a missing content element silently returns; otherwise the current
frame handle is cancelled and the collapse frame callback is scheduled.
Unlike the expand path, the state is *not* changed synchronously — the flip
to `Collapsing` happens inside the frame callback. -/
def collapseAccordion (initialUpdate : Bool) (m : Machine) : Machine :=
  if initialUpdate then { m with state := .Collapsed }
  else if m.state = .Collapsed then m
  else if m.hasContentEl = false then m
  else scheduleRaf .collapseFrame (cancelCurrent m)

/-- `getNextSibling()` composed with the value read (source lines 249–250,
265–273); `undefined` when the host element is missing. -/
def Machine.nextAdjValue (m : Machine) : Option String :=
  if m.hasEl then siblingAdjValue m.nextSibling else none

/-- `getPreviousSibling()` composed with the value read (source lines
256–257, 275–283); `undefined` when the host element is missing. -/
def Machine.prevAdjValue (m : Machine) : Option String :=
  if m.hasEl then siblingAdjValue m.prevSibling else none

/-- `updateState(initialUpdate)` (source lines 226–263).  Returns early when
`value` is undefined or no group reference is held.  Otherwise computes
`shouldExpand` from the group's value; on expand it clears both adjacency
flags; on collapse it reassigns `isPrevious` from the next sibling's value
and `isNext` from the previous sibling's value, each only when that sibling
value is defined. -/
def updateState (initialUpdate : Bool) (m : Machine) : Machine :=
  match m.value, m.hasGroup with
  | some accordionValue, true =>
    let value := m.groupValue
    if value.selects accordionValue then
      let m1 := expandAccordion initialUpdate m
      { m1 with isNext := false, isPrevious := false }
    else
      let m1 := collapseAccordion initialUpdate m
      let m2 :=
        match m1.nextAdjValue with
        | some nv => { m1 with isPrevious := value.selects nv }
        | none => m1
      match m2.prevAdjValue with
      | some pv => { m2 with isNext := value.selects pv }
      | none => m2
  | _, _ => m

/-- `connectedCallback()` (source lines 90–96): resolves the enclosing group
via `this.el && this.el.closest('ion-accordion-group')` and, when found,
runs the initial `updateState(true)` (the `ionChange` subscription is the
event wiring that delivers the later `updateState(false)` calls). -/
def connectedCallback (m : Machine) : Machine :=
  let m1 := { m with hasGroup := m.hasEl && m.groupAncestor }
  if m1.hasGroup then updateState true m1 else m1

/-- The synchronous prefix of a frame callback, up to its `await`.
Expand frame (source lines 167–180): measure the wrapper height, register
the `transitionEndAsync(contentEl, 50000)` wait, set `max-height`, force a
layout flush, then suspend.  Collapse frame (source lines 203–218): measure
the content height, set `max-height`, force a layout flush, register the
wait, set the state to `Collapsing`, then suspend. -/
def runFrameKind : FrameKind → Machine → Machine
  | .expandFrame, m =>
    { m with pendingWaits := m.pendingWaits ++ [(.expandWait, 50000)],
             maxHeightSet := true }
  | .collapseFrame, m =>
    { m with maxHeightSet := true,
             pendingWaits := m.pendingWaits ++ [(.collapseWait, 50000)],
             state := .Collapsing }

/-- The animation-frame scheduler delivering a pending frame: the frame is
removed from the queue and its callback body runs up to its `await`. -/
def runFrame (m : Machine) (id : Nat) : Machine :=
  match m.pendingFrames.find? (fun p => p.1 == id) with
  | some (_, k) =>
      runFrameKind k { m with pendingFrames := m.pendingFrames.filter (fun p => p.1 != id) }
  | none => m

/-- Resolution of the oldest pending transition wait (by `transitionend` or
by its timeout; both resolve waits in registration order, since every wait
listens on the same content element and all use the same timeout).  The
expand continuation (source lines 183–184) sets the state to `Expanded` and
removes `max-height`; the collapse continuation (source lines 221–222) sets
the state to `Collapsed` and removes `max-height`. -/
def fireWait (m : Machine) : Machine :=
  match m.pendingWaits with
  | [] => m
  | (w, _) :: rest =>
    match w with
    | .expandWait =>
      { m with pendingWaits := rest, state := .Expanded, maxHeightSet := false,
               expandCompletions := m.expandCompletions + 1 }
    | .collapseWait =>
      { m with pendingWaits := rest, state := .Collapsed, maxHeightSet := false,
               collapseCompletions := m.collapseCompletions + 1 }

/-- Runs to quiescence a machine that had no pending frames or waits before
its last synchronous operation: at most one frame is then pending, and that
frame registers at most one wait. -/
def settleOnce (m : Machine) : Machine :=
  match m.pendingFrames with
  | [] => m
  | (id, _) :: _ => fireWait (runFrame m id)

/-- `toggleExpanded()` (source lines 285–299): when a group reference is
held, computes `expand = state === Collapsed || state === Collapsing` and
forwards `(value, expand)` to `accordionGroupEl.requestAccordionToggle`;
the component's own fields are not touched.  The returned pair is the
unchanged machine together with the forwarded request, if any. -/
def toggleExpanded (m : Machine) : Machine × Option (Option String × Bool) :=
  if m.hasGroup then
    (m, some (m.value, m.state == .Collapsed || m.state == .Collapsing))
  else (m, none)

/-- Modelled from the spec: `transitionEndAsync(el, expectedDuration)` lives
in `src/core/src/utils/helpers.ts`, which is not included under `src/`.
Per the spec it is a race between the transition-completion signal and a
fixed timeout, resolving at whichever occurs first.  `start` is the moment
the wait begins, `signal` the absolute time the completion signal arrives
(or `none` when it never arrives). -/
def transitionEndResolveTime (start timeoutMs : Nat) (signal : Option Nat) : Nat :=
  match signal with
  | none => start + timeoutMs
  | some t => min (max t start) (start + timeoutMs)

/-- Observable steps of a frame callback, used to state the ordering of
operations inside the two `raf` bodies. -/
inductive TransEvent where
  | measureWrapper
  | measureContent
  | beginWait (timeoutMs : Nat)
  | setMaxHeight
  | forceLayoutFlush
  | awaitCompletion
  | setLifecycle (s : AccordionState)
  | removeMaxHeight
deriving DecidableEq, Repr

/-- Straight-line transliteration of the expand frame callback body (source
lines 167–185): `contentElWrapper.offsetHeight` (168), `transitionEndAsync`
(169), `setProperty('max-height', …)` (170), `void contentEl.offsetHeight`
(179), `await waitForTransition` (181), `state = Expanded` (183),
`removeProperty('max-height')` (184). -/
def expandFrameTrace : List TransEvent :=
  [ .measureWrapper, .beginWait 50000, .setMaxHeight, .forceLayoutFlush,
    .awaitCompletion, .setLifecycle .Expanded, .removeMaxHeight ]

/-- Straight-line transliteration of the collapse frame callback body
(source lines 203–223): `contentEl.offsetHeight` (204), `setProperty` (205),
`void contentEl.offsetHeight` (214), `transitionEndAsync` (216),
`state = Collapsing` (217), `await waitForTransition` (219),
`state = Collapsed` (221), `removeProperty('max-height')` (222). -/
def collapseFrameTrace : List TransEvent :=
  [ .measureContent, .setMaxHeight, .forceLayoutFlush, .beginWait 50000,
    .setLifecycle .Collapsing, .awaitCompletion,
    .setLifecycle .Collapsed, .removeMaxHeight ]

/-- A freshly constructed accordion item inside a group: default state
`Collapsed` and both flags false (source lines 47–49), no scheduled frame or
wait, content element and wrapper rendered, host element present. -/
def freshItem (v : Option String) (gv : GroupValue) (prev next : Sibling) : Machine :=
  { hasEl := true, groupAncestor := true, hasGroup := true,
    value := v, groupValue := gv, state := .Collapsed,
    isNext := false, isPrevious := false,
    hasContentEl := true, hasContentWrapper := true, maxHeightSet := false,
    currentRaf := none, nextRafId := 0, pendingFrames := [], pendingWaits := [],
    nextSibling := next, prevSibling := prev,
    rafSchedules := 0, framesCancelled := 0,
    expandCompletions := 0, collapseCompletions := 0 }

/-- C4: inside the expand frame, the unconstrained content height is measured
first, then the completion wait begins, then the height constraint is applied
and the synchronous layout flush forced, and only after completion is the
state set to `Expanded` and the constraint removed; inside the collapse
frame, the rendered height is measured, applied as a constraint and the
layout flush forced before the completion wait begins and before the state
flips to `Collapsing`, and only after completion is the state set to
`Collapsed` and the constraint removed. -/
theorem transition_protocols_asymmetric_order :
    (expandFrameTrace.indexOf .measureWrapper < expandFrameTrace.indexOf (.beginWait 50000)
      ∧ expandFrameTrace.indexOf (.beginWait 50000) < expandFrameTrace.indexOf .setMaxHeight
      ∧ expandFrameTrace.indexOf .setMaxHeight < expandFrameTrace.indexOf .forceLayoutFlush
      ∧ expandFrameTrace.indexOf .forceLayoutFlush < expandFrameTrace.indexOf .awaitCompletion
      ∧ expandFrameTrace.indexOf .awaitCompletion < expandFrameTrace.indexOf (.setLifecycle .Expanded)
      ∧ expandFrameTrace.indexOf (.setLifecycle .Expanded) < expandFrameTrace.indexOf .removeMaxHeight
      ∧ (.setLifecycle .Expanding) ∉ expandFrameTrace)
    ∧ (collapseFrameTrace.indexOf .measureContent < collapseFrameTrace.indexOf .setMaxHeight
      ∧ collapseFrameTrace.indexOf .setMaxHeight < collapseFrameTrace.indexOf .forceLayoutFlush
      ∧ collapseFrameTrace.indexOf .forceLayoutFlush < collapseFrameTrace.indexOf (.beginWait 50000)
      ∧ collapseFrameTrace.indexOf (.beginWait 50000) < collapseFrameTrace.indexOf (.setLifecycle .Collapsing)
      ∧ collapseFrameTrace.indexOf (.setLifecycle .Collapsing) < collapseFrameTrace.indexOf .awaitCompletion
      ∧ collapseFrameTrace.indexOf .awaitCompletion < collapseFrameTrace.indexOf (.setLifecycle .Collapsed)
      ∧ collapseFrameTrace.indexOf (.setLifecycle .Collapsed) < collapseFrameTrace.indexOf .removeMaxHeight) := by
  decide

/-- C5: for every item, `toggleExpanded` leaves the machine unchanged and,
exactly when a group reference is held, forwards the pair
`(value, state = Collapsed ∨ state = Collapsing)` to the group's
`requestAccordionToggle` entry point. -/
theorem toggleExpanded_defers_to_group (m : Machine) :
    (toggleExpanded m).1 = m ∧
    (toggleExpanded m).2 =
      (if m.hasGroup then
        some (m.value, m.state == .Collapsed || m.state == .Collapsing)
       else none) := by
  cases hg : m.hasGroup <;> simp [toggleExpanded, hg]

/-- C9: an item whose `value` is undefined never participates in
expand/collapse logic: `updateState` returns at its top-of-function guard
leaving every field unchanged, for every group value and for both the
initial and the change-driven update, and the toggle-request path also
leaves the item's local state unchanged. -/
theorem undefined_value_never_participates (m : Machine) (i : Bool)
    (h : m.value = none) :
    updateState i m = m ∧ (toggleExpanded m).1 = m := by
  refine ⟨?_, ?_⟩
  · unfold updateState
    rw [h]
  · cases hg : m.hasGroup <;> simp [toggleExpanded, hg]

/-- Witness for C9 at a concrete valueless item. -/
theorem undefined_value_never_participates_witness :
    updateState false (freshItem none (.scalar "panel-1") .absent .absent)
        = freshItem none (.scalar "panel-1") .absent .absent
      ∧ (toggleExpanded (freshItem none (.scalar "panel-1") .absent .absent)).1
        = freshItem none (.scalar "panel-1") .absent .absent :=
  undefined_value_never_participates (freshItem none (.scalar "panel-1") .absent .absent) false rfl

/-- An item settled in the `Expanded` state whose group selection has just
changed to deselect it, after the resulting collapse frame has already run:
the collapse transition is in flight (state `Collapsing`, transition wait
pending, frame queue empty, `currentRaf` holding the stale id 0). -/
def collapseInFlight : Machine :=
  runFrame
    (updateState false
      { freshItem (some "a") .undef .absent .absent with state := .Expanded })
    0

/-- The in-flight collapse interrupted by an expand request: the group
selection flips back to `"a"` and the change notification runs
`updateState(false)` again. -/
def interruptedExpand : Machine :=
  updateState false { collapseInFlight with groupValue := .scalar "a" }

/-- C2 (code bug, marked by the source's own `TODO need to be able to
interrupt toggle`): with a collapse in flight whose animation frame has
already run, the expand request cancels zero pending frames — the stored
`currentRaf` id is stale, so `cancelAnimationFrame` is a no-op — and after
everything settles both the superseded collapse completion and the new
expand completion have fired; the item transiently re-enters `Collapsed`
after the reversal. -/
theorem inflight_collapse_interruption_double_fire :
    collapseInFlight.state = .Collapsing
    ∧ collapseInFlight.pendingWaits = [(.collapseWait, 50000)]
    ∧ collapseInFlight.pendingFrames = []
    ∧ interruptedExpand.framesCancelled = 0
    ∧ interruptedExpand.state = .Expanding
    ∧ (fireWait (runFrame interruptedExpand 1)).state = .Collapsed
    ∧ (fireWait (fireWait (runFrame interruptedExpand 1))).state = .Expanded
    ∧ (fireWait (fireWait (runFrame interruptedExpand 1))).collapseCompletions = 1
    ∧ (fireWait (fireWait (runFrame interruptedExpand 1))).expandCompletions = 1 := by
  decide
/-- Item A of the adjacency scenario as the claim states it: value `"a"`,
selection `"b"`, the selected item B immediately next in document order. -/
def adjacencyItemA : Machine :=
  freshItem (some "a") (.scalar "b") .absent (.accordion (some "b"))

/-- C1 counterexample: for item A immediately before the selected item B,
after the selection change settles, the code leaves `isNext` false and sets
`isPrevious` true — the claim asserts `A.isNext == true` and
`A.isPrevious == false`, both of which fail. -/
theorem adjacency_claim_flags_counterexample :
    (updateState false adjacencyItemA).isNext = false
    ∧ (updateState false adjacencyItemA).isPrevious = true := by
  decide

/-- C1 amended: for adjacent items A, B, C in document order with only B's
identifier selected, after the selection change settles the code yields
`A.isPrevious = true` and `A.isNext = false` (A is the item previous to the
open one), `C.isNext = true` and `C.isPrevious = false`, and B has both
adjacency flags false and is `Expanded` (open). -/
theorem adjacency_flags_after_selection (va vb vc : String)
    (hba : vb ≠ va) (hbc : vb ≠ vc) :
    ((updateState false (freshItem (some va) (.scalar vb) .absent (.accordion (some vb)))).isPrevious = true
      ∧ (updateState false (freshItem (some va) (.scalar vb) .absent (.accordion (some vb)))).isNext = false)
    ∧ ((updateState false (freshItem (some vc) (.scalar vb) (.accordion (some vb)) .absent)).isNext = true
      ∧ (updateState false (freshItem (some vc) (.scalar vb) (.accordion (some vb)) .absent)).isPrevious = false)
    ∧ ((updateState false (freshItem (some vb) (.scalar vb) (.accordion (some va)) (.accordion (some vc)))).isNext = false
      ∧ (updateState false (freshItem (some vb) (.scalar vb) (.accordion (some va)) (.accordion (some vc)))).isPrevious = false
      ∧ (fireWait (runFrame (updateState false (freshItem (some vb) (.scalar vb) (.accordion (some va)) (.accordion (some vc)))) 0)).state = .Expanded) := by
  simp [updateState, freshItem, expandAccordion, collapseAccordion, scheduleRaf,
        cancelCurrent, cancelAnimationFrame, runFrame, runFrameKind, fireWait,
        Machine.nextAdjValue, Machine.prevAdjValue, siblingAdjValue,
        GroupValue.selects, beq_iff_eq, hba, hbc]

/-- Witness for the amended adjacency theorem at the concrete identifiers
`"a"`, `"b"`, `"c"`. -/
theorem adjacency_flags_after_selection_witness :
    (("b" : String) ≠ "a") ∧ (("b" : String) ≠ "c")
    ∧ (((updateState false (freshItem (some "a") (.scalar "b") .absent (.accordion (some "b")))).isPrevious = true
      ∧ (updateState false (freshItem (some "a") (.scalar "b") .absent (.accordion (some "b")))).isNext = false)
    ∧ ((updateState false (freshItem (some "c") (.scalar "b") (.accordion (some "b")) .absent)).isNext = true
      ∧ (updateState false (freshItem (some "c") (.scalar "b") (.accordion (some "b")) .absent)).isPrevious = false)
    ∧ ((updateState false (freshItem (some "b") (.scalar "b") (.accordion (some "a")) (.accordion (some "c")))).isNext = false
      ∧ (updateState false (freshItem (some "b") (.scalar "b") (.accordion (some "a")) (.accordion (some "c")))).isPrevious = false
      ∧ (fireWait (runFrame (updateState false (freshItem (some "b") (.scalar "b") (.accordion (some "a")) (.accordion (some "c")))) 0)).state = .Expanded)) :=
  ⟨by decide, by decide, adjacency_flags_after_selection "a" "b" "c" (by decide) (by decide)⟩
/-- `collapseAccordion` never touches the host/sibling environment, the
group value, or the adjacency flags. -/
theorem collapseAccordion_env (i : Bool) (m : Machine) :
    (collapseAccordion i m).hasEl = m.hasEl
    ∧ (collapseAccordion i m).nextSibling = m.nextSibling
    ∧ (collapseAccordion i m).prevSibling = m.prevSibling
    ∧ (collapseAccordion i m).groupValue = m.groupValue
    ∧ (collapseAccordion i m).isNext = m.isNext
    ∧ (collapseAccordion i m).isPrevious = m.isPrevious := by
  unfold collapseAccordion scheduleRaf cancelCurrent cancelAnimationFrame
  refine ⟨?_, ?_, ?_, ?_, ?_, ?_⟩ <;> (repeat' split) <;> rfl

/-- An item that is still `Expanded` (its group previously selected it) at
the moment the selection moves to its next sibling `"b"`. -/
def expandedThenDeselected : Machine :=
  { freshItem (some "a") (.scalar "b") .absent (.accordion (some "b")) with
      state := .Expanded }

/-- C3 counterexample: immediately after `updateState` with `shouldExpand`
false, the item is still `Expanded` — the flip to `Collapsing` happens only
inside the scheduled animation frame — while `isPrevious` has just been set
true, refuting "both flags are false whenever the item is Expanded or
Expanding". -/
theorem expanded_item_with_adjacency_flag :
    (updateState false expandedThenDeselected).state = .Expanded
    ∧ (updateState false expandedThenDeselected).isPrevious = true := by
  decide

/-- C3 amended: `shouldExpand` is membership for an array selection and
equality for a scalar one; when it is true the update expands (the resulting
state is exactly `expandAccordion`'s) and clears both adjacency flags, and
when it is false the update collapses (the resulting state is exactly
`collapseAccordion`'s — which can still be `Expanded` until the scheduled
frame runs) and reassigns each adjacency flag from the corresponding
sibling value only when that value is defined. -/
theorem applyGroupSelection_computation (m : Machine) (av : String)
    (hv : m.value = some av) (hg : m.hasGroup = true) :
    (∀ s v, (GroupValue.scalar s).selects v = (s == v))
    ∧ (∀ l v, (GroupValue.arr l).selects v = l.contains v)
    ∧ (m.groupValue.selects av = true →
        (updateState false m).isNext = false
        ∧ (updateState false m).isPrevious = false
        ∧ (updateState false m).state = (expandAccordion false m).state)
    ∧ (m.groupValue.selects av = false →
        (updateState false m).state = (collapseAccordion false m).state
        ∧ (updateState false m).isPrevious =
            (match m.nextAdjValue with
             | some nv => m.groupValue.selects nv
             | none => m.isPrevious)
        ∧ (updateState false m).isNext =
            (match m.prevAdjValue with
             | some pv => m.groupValue.selects pv
             | none => m.isNext)) := by
  obtain ⟨he, hns, hps, hgv, hin, hip⟩ := collapseAccordion_env false m
  refine ⟨fun s v => rfl, fun l v => rfl, ?_, ?_⟩
  · intro hsel
    simp [updateState, hv, hg, hsel]
  · intro hsel
    cases hn : m.nextAdjValue <;> cases hp : m.prevAdjValue <;>
      (unfold Machine.nextAdjValue at hn
       unfold Machine.prevAdjValue at hp
       simp only [updateState, hv, hg, hsel, Bool.false_eq_true, if_false,
                 Machine.nextAdjValue, Machine.prevAdjValue,
                 he, hns, hps, hgv, hn, hp]
       simp [hin, hip])

/-- A concrete non-selected item used to instantiate the amended
`applyGroupSelection` computation theorem: value `"a"`, array selection
`["b"]`, selected item immediately next in document order. -/
def deselectedWitnessItem : Machine :=
  freshItem (some "a") (.arr ["b"]) .absent (.accordion (some "b"))

/-- Witness for the amended `applyGroupSelection` computation theorem at a
concrete array-selection item. -/
theorem applyGroupSelection_computation_witness :
    deselectedWitnessItem.value = some "a"
    ∧ deselectedWitnessItem.hasGroup = true
    ∧ (GroupValue.scalar "b").selects "a" = ("b" == "a")
    ∧ (GroupValue.arr ["b"]).selects "a" = (["b"].contains "a")
    ∧ deselectedWitnessItem.groupValue.selects "a" = false
    ∧ ((updateState false deselectedWitnessItem).state
          = (collapseAccordion false deselectedWitnessItem).state
      ∧ (updateState false deselectedWitnessItem).isPrevious =
          (match deselectedWitnessItem.nextAdjValue with
           | some nv => deselectedWitnessItem.groupValue.selects nv
           | none => deselectedWitnessItem.isPrevious)
      ∧ (updateState false deselectedWitnessItem).isNext =
          (match deselectedWitnessItem.prevAdjValue with
           | some pv => deselectedWitnessItem.groupValue.selects pv
           | none => deselectedWitnessItem.isNext)) :=
  ⟨rfl, rfl,
   (applyGroupSelection_computation deselectedWitnessItem "a" rfl rfl).1 "b" "a",
   (applyGroupSelection_computation deselectedWitnessItem "a" rfl rfl).2.1 ["b"] "a",
   by decide,
   (applyGroupSelection_computation deselectedWitnessItem "a" rfl rfl).2.2.2 (by decide)⟩
/-- C10: during a group-selection application with `shouldExpand` false, an
adjacency flag is reassigned exactly when the corresponding adjacent sibling
value is defined — which requires the adjacent element to exist, to be an
`ion-accordion`, and to carry a defined `value` — and is otherwise left
unchanged, so a previously-set flag persists after the neighbour that
justified it is removed or loses its identifier. -/
theorem adjacency_flag_frame_condition (m : Machine) (av : String) (i : Bool)
    (hv : m.value = some av) (hg : m.hasGroup = true)
    (hsel : m.groupValue.selects av = false) :
    ((updateState i m).isPrevious =
        (match m.nextAdjValue with
         | some nv => m.groupValue.selects nv
         | none => m.isPrevious)
      ∧ (updateState i m).isNext =
        (match m.prevAdjValue with
         | some pv => m.groupValue.selects pv
         | none => m.isNext))
    ∧ (siblingAdjValue .absent = none
      ∧ siblingAdjValue .notAccordion = none
      ∧ siblingAdjValue (.accordion none) = none
      ∧ ∀ v, siblingAdjValue (.accordion (some v)) = some v)
    ∧ (updateState false
         { freshItem (some "stale") (.scalar "other") .absent .notAccordion with
             isPrevious := true }).isPrevious = true := by
  obtain ⟨he, hns, hps, hgv, hin, hip⟩ := collapseAccordion_env i m
  refine ⟨?_, ⟨rfl, rfl, rfl, fun v => rfl⟩, by decide⟩
  cases hn : m.nextAdjValue <;> cases hp : m.prevAdjValue <;>
    (unfold Machine.nextAdjValue at hn
     unfold Machine.prevAdjValue at hp
     simp only [updateState, hv, hg, hsel, Bool.false_eq_true, if_false,
                Machine.nextAdjValue, Machine.prevAdjValue,
                he, hns, hps, hgv, hn, hp]
     simp [hin, hip])

/-- A collapsed item whose `isNext` flag was set while a now-vanished
selected neighbour preceded it: the previous sibling is no longer an
accordion and the next sibling is an accordion without a `value`. -/
def staleFlagItem : Machine :=
  { freshItem (some "p") (.scalar "q") .notAccordion (.accordion none) with
      isNext := true }

/-- Witness for the adjacency-flag frame-condition theorem at a concrete
item with both sibling values undefined, showing the stale flag persists. -/
theorem adjacency_flag_frame_condition_witness :
    staleFlagItem.value = some "p"
    ∧ staleFlagItem.hasGroup = true
    ∧ staleFlagItem.groupValue.selects "p" = false
    ∧ ((updateState false staleFlagItem).isPrevious =
        (match staleFlagItem.nextAdjValue with
         | some nv => staleFlagItem.groupValue.selects nv
         | none => staleFlagItem.isPrevious)
      ∧ (updateState false staleFlagItem).isNext =
        (match staleFlagItem.prevAdjValue with
         | some pv => staleFlagItem.groupValue.selects pv
         | none => staleFlagItem.isNext))
    ∧ siblingAdjValue (.accordion (some "q")) = some "q"
    ∧ (updateState false staleFlagItem).isNext = true :=
  ⟨rfl, rfl, by decide,
   (adjacency_flag_frame_condition staleFlagItem "p" false rfl rfl (by decide)).1,
   (adjacency_flag_frame_condition staleFlagItem "p" false rfl rfl (by decide)).2.1.2.2.2 "q",
   by decide⟩
/-- C6 (with `transitionEndAsync` modelled from the spec): every animated
expand or collapse registers its completion wait with the fixed 50000 ms
timeout; resolving the wait — by the completion signal or by the timeout —
always lands the item in the corresponding terminal state with the
`max-height` constraint removed, and the wait's resolution time never
exceeds its start time plus 50000, even when the signal never arrives. -/
theorem transition_wait_bounded_and_terminal (m : Machine)
    (hq : m.pendingFrames = []) (hw : m.pendingWaits = [])
    (hc : m.hasContentEl = true) (hcw : m.hasContentWrapper = true) :
    (m.state ≠ .Expanded →
      (expandAccordion false m).pendingFrames = [(m.nextRafId, .expandFrame)]
      ∧ (runFrame (expandAccordion false m) m.nextRafId).pendingWaits
          = [(.expandWait, 50000)]
      ∧ (fireWait (runFrame (expandAccordion false m) m.nextRafId)).state = .Expanded
      ∧ (fireWait (runFrame (expandAccordion false m) m.nextRafId)).maxHeightSet = false
      ∧ (fireWait (runFrame (expandAccordion false m) m.nextRafId)).pendingWaits = [])
    ∧ (m.state ≠ .Collapsed →
      (collapseAccordion false m).pendingFrames = [(m.nextRafId, .collapseFrame)]
      ∧ (runFrame (collapseAccordion false m) m.nextRafId).pendingWaits
          = [(.collapseWait, 50000)]
      ∧ (fireWait (runFrame (collapseAccordion false m) m.nextRafId)).state = .Collapsed
      ∧ (fireWait (runFrame (collapseAccordion false m) m.nextRafId)).maxHeightSet = false
      ∧ (fireWait (runFrame (collapseAccordion false m) m.nextRafId)).pendingWaits = [])
    ∧ (∀ start signal, transitionEndResolveTime start 50000 signal ≤ start + 50000)
    ∧ (∀ start, transitionEndResolveTime start 50000 none = start + 50000) := by
  refine ⟨?_, ?_, ?_, fun start => rfl⟩
  · intro h
    cases hr : m.currentRaf <;>
      simp [expandAccordion, collapseAccordion, scheduleRaf, cancelCurrent,
            cancelAnimationFrame, runFrame, runFrameKind, fireWait,
            hr, hq, hw, hc, hcw, h]
  · intro h
    cases hr : m.currentRaf <;>
      simp [expandAccordion, collapseAccordion, scheduleRaf, cancelCurrent,
            cancelAnimationFrame, runFrame, runFrameKind, fireWait,
            hr, hq, hw, hc, hcw, h]
  · intro start signal
    cases signal <;> simp [transitionEndResolveTime]

/-- A quiescent item caught mid-`Collapsing`, used to instantiate the
timeout-bound theorem on both transition directions. -/
def timeoutWitnessItem : Machine :=
  { freshItem (some "t") (.scalar "t") .absent .absent with state := .Collapsing }

/-- Witness for the timeout-bound theorem at a concrete item and concrete
wait start times. -/
theorem transition_wait_bounded_and_terminal_witness :
    timeoutWitnessItem.pendingFrames = []
    ∧ timeoutWitnessItem.pendingWaits = []
    ∧ timeoutWitnessItem.hasContentEl = true
    ∧ timeoutWitnessItem.hasContentWrapper = true
    ∧ ((expandAccordion false timeoutWitnessItem).pendingFrames
          = [(timeoutWitnessItem.nextRafId, .expandFrame)]
      ∧ (runFrame (expandAccordion false timeoutWitnessItem) timeoutWitnessItem.nextRafId).pendingWaits
          = [(.expandWait, 50000)]
      ∧ (fireWait (runFrame (expandAccordion false timeoutWitnessItem) timeoutWitnessItem.nextRafId)).state = .Expanded
      ∧ (fireWait (runFrame (expandAccordion false timeoutWitnessItem) timeoutWitnessItem.nextRafId)).maxHeightSet = false
      ∧ (fireWait (runFrame (expandAccordion false timeoutWitnessItem) timeoutWitnessItem.nextRafId)).pendingWaits = [])
    ∧ ((collapseAccordion false timeoutWitnessItem).pendingFrames
          = [(timeoutWitnessItem.nextRafId, .collapseFrame)]
      ∧ (runFrame (collapseAccordion false timeoutWitnessItem) timeoutWitnessItem.nextRafId).pendingWaits
          = [(.collapseWait, 50000)]
      ∧ (fireWait (runFrame (collapseAccordion false timeoutWitnessItem) timeoutWitnessItem.nextRafId)).state = .Collapsed
      ∧ (fireWait (runFrame (collapseAccordion false timeoutWitnessItem) timeoutWitnessItem.nextRafId)).maxHeightSet = false
      ∧ (fireWait (runFrame (collapseAccordion false timeoutWitnessItem) timeoutWitnessItem.nextRafId)).pendingWaits = [])
    ∧ transitionEndResolveTime 7 50000 (some 3) ≤ 7 + 50000
    ∧ transitionEndResolveTime 7 50000 none = 7 + 50000 :=
  ⟨rfl, rfl, rfl, rfl,
   (transition_wait_bounded_and_terminal timeoutWitnessItem rfl rfl rfl rfl).1 (by decide),
   (transition_wait_bounded_and_terminal timeoutWitnessItem rfl rfl rfl rfl).2.1 (by decide),
   (transition_wait_bounded_and_terminal timeoutWitnessItem rfl rfl rfl rfl).2.2.1 7 (some 3),
   (transition_wait_bounded_and_terminal timeoutWitnessItem rfl rfl rfl rfl).2.2.2 7⟩

/-- C8: on first attachment, a fresh item with a resolvable group and a
defined identifier immediately adopts the terminal state matching the
group's current selection without scheduling any animation frame or
transition wait; concretely, with scalar selection `"panel-2"`, fresh items
`"panel-1"`, `"panel-2"`, `"panel-3"` mount to `Collapsed`, `Expanded`,
`Collapsed`. -/
theorem initial_mount_adopts_terminal_state (v : String) (gv : GroupValue)
    (prev next : Sibling) :
    ((connectedCallback (freshItem (some v) gv prev next)).state
        = (if gv.selects v then .Expanded else .Collapsed)
      ∧ (connectedCallback (freshItem (some v) gv prev next)).pendingFrames = []
      ∧ (connectedCallback (freshItem (some v) gv prev next)).pendingWaits = []
      ∧ (connectedCallback (freshItem (some v) gv prev next)).rafSchedules = 0)
    ∧ ((connectedCallback (freshItem (some "panel-1") (.scalar "panel-2") .absent (.accordion (some "panel-2")))).state = .Collapsed
      ∧ (connectedCallback (freshItem (some "panel-2") (.scalar "panel-2") (.accordion (some "panel-1")) (.accordion (some "panel-3")))).state = .Expanded
      ∧ (connectedCallback (freshItem (some "panel-3") (.scalar "panel-2") (.accordion (some "panel-2")) .absent)).state = .Collapsed) := by
  refine ⟨?_, by decide, by decide, by decide⟩
  by_cases hsel : gv.selects v = true <;>
    rcases prev with _ | _ | (_ | pv) <;> rcases next with _ | _ | (_ | nv) <;>
      simp [connectedCallback, updateState, freshItem, expandAccordion,
            collapseAccordion, Machine.nextAdjValue, Machine.prevAdjValue,
            siblingAdjValue, hsel]
/-- `cancelAnimationFrame` via a stored handle is a no-op on a machine with
no pending frames. -/
theorem cancelCurrent_no_pending (m : Machine) (h : m.pendingFrames = []) :
    cancelCurrent m = m := by
  unfold cancelCurrent cancelAnimationFrame
  cases m.currentRaf <;> simp [h]

/-- A fresh collapsed item whose group selection already selects it. -/
def immediateReapplyItem : Machine :=
  freshItem (some "a") (.scalar "a") .absent .absent

/-- C7 counterexample: invoking `updateState` a second time with the
unchanged selection before the first transition settles schedules a second
animation frame — the first, still pending, is cancelled and replaced —
because after the first call the state is the transient `Expanding` and the
no-op guard tests only the target terminal state `Expanded`. -/
theorem immediate_reapplication_schedules_again :
    (updateState false immediateReapplyItem).rafSchedules = 1
    ∧ (updateState false immediateReapplyItem).state = .Expanding
    ∧ (updateState false (updateState false immediateReapplyItem)).rafSchedules = 2
    ∧ (updateState false (updateState false immediateReapplyItem)).framesCancelled = 1 := by
  decide

/-- C7 amended: once the scheduled work of a selection application has
settled, re-invoking `updateState` with the unchanged selection is
transition-free and state-preserving: no frame is scheduled, no wait is
registered, and the lifecycle state and both adjacency flags are unchanged
(an expand request while `Expanded` and a collapse request while `Collapsed`
are no-ops). -/
theorem applyGroupSelection_idempotent_after_settling (m : Machine)
    (hq : m.pendingFrames = []) (hw : m.pendingWaits = []) :
    (updateState false (settleOnce (updateState false m))).rafSchedules
        = (settleOnce (updateState false m)).rafSchedules
    ∧ (updateState false (settleOnce (updateState false m))).pendingFrames
        = (settleOnce (updateState false m)).pendingFrames
    ∧ (updateState false (settleOnce (updateState false m))).pendingWaits
        = (settleOnce (updateState false m)).pendingWaits
    ∧ (updateState false (settleOnce (updateState false m))).state
        = (settleOnce (updateState false m)).state
    ∧ (updateState false (settleOnce (updateState false m))).isNext
        = (settleOnce (updateState false m)).isNext
    ∧ (updateState false (settleOnce (updateState false m))).isPrevious
        = (settleOnce (updateState false m)).isPrevious := by
  rcases hv : m.value with _ | av
  · simp [updateState, hv, settleOnce, hq]
  · cases hgr : m.hasGroup
    · simp [updateState, hv, hgr, settleOnce, hq]
    · by_cases hsel : m.groupValue.selects av = true
      · by_cases hst : m.state = .Expanded
        · simp [updateState, expandAccordion, settleOnce,
                hv, hgr, hsel, hst, hq]
        · by_cases hcc : m.hasContentEl = false ∨ m.hasContentWrapper = false
          · simp [updateState, expandAccordion, settleOnce,
                  hv, hgr, hsel, hst, hcc, hq]
          · simp [updateState, expandAccordion, scheduleRaf,
                  cancelCurrent_no_pending, settleOnce, runFrame, runFrameKind,
                  fireWait, hv, hgr, hsel, hst, hcc, hq, hw]
      · cases hn : m.nextAdjValue <;> cases hp : m.prevAdjValue <;>
          (unfold Machine.nextAdjValue at hn
           unfold Machine.prevAdjValue at hp
           by_cases hst : m.state = .Collapsed
           · simp [updateState, collapseAccordion, settleOnce,
                   Machine.nextAdjValue, Machine.prevAdjValue,
                   hv, hgr, hsel, hst, hq, hn, hp]
           · by_cases hce : m.hasContentEl = false
             · simp [updateState, collapseAccordion, settleOnce,
                     Machine.nextAdjValue, Machine.prevAdjValue,
                     hv, hgr, hsel, hst, hce, hq, hn, hp]
             · simp [updateState, collapseAccordion, scheduleRaf,
                     cancelCurrent_no_pending, settleOnce, runFrame,
                     runFrameKind, fireWait,
                     Machine.nextAdjValue, Machine.prevAdjValue,
                     hv, hgr, hsel, hst, hce, hq, hw, hn, hp])

/-- A fresh selected item used to instantiate the settled-idempotence
theorem. -/
def settledWitnessItem : Machine :=
  freshItem (some "w") (.scalar "w") .absent .absent

/-- Witness for the settled-idempotence theorem at a concrete item. -/
theorem applyGroupSelection_idempotent_after_settling_witness :
    settledWitnessItem.pendingFrames = []
    ∧ settledWitnessItem.pendingWaits = []
    ∧ ((updateState false (settleOnce (updateState false settledWitnessItem))).rafSchedules
          = (settleOnce (updateState false settledWitnessItem)).rafSchedules
      ∧ (updateState false (settleOnce (updateState false settledWitnessItem))).pendingFrames
          = (settleOnce (updateState false settledWitnessItem)).pendingFrames
      ∧ (updateState false (settleOnce (updateState false settledWitnessItem))).pendingWaits
          = (settleOnce (updateState false settledWitnessItem)).pendingWaits
      ∧ (updateState false (settleOnce (updateState false settledWitnessItem))).state
          = (settleOnce (updateState false settledWitnessItem)).state
      ∧ (updateState false (settleOnce (updateState false settledWitnessItem))).isNext
          = (settleOnce (updateState false settledWitnessItem)).isNext
      ∧ (updateState false (settleOnce (updateState false settledWitnessItem))).isPrevious
          = (settleOnce (updateState false settledWitnessItem)).isPrevious) :=
  ⟨rfl, rfl, applyGroupSelection_idempotent_after_settling settledWitnessItem rfl rfl⟩
